import Mathlib

/-!
Verification of the `cloudmgr` module of the BatCave repository.

The module (`src/batcave/cloudmgr.py`) provides a provider-polymorphic
interface (`Cloud`, `Image`, `Container`) over three cloud provider kinds
(`local`, `gcloud`, `dockerhub` — the spec calls them `local`,
`cli-registry` and `hosted-registry` respectively).

The embedding below is shallow: each Python method becomes a Lean function
returning an `Except` result paired with the list of collaborator calls
(native Docker client calls and `gcloud` CLI invocations) the method makes,
in order.  Collaborator responses (native lookups, action log streams,
CLI JSON output, stderr text) are supplied by an explicit environment
`Env`, so every function is executable on concrete inputs.
-/

namespace CloudMgr

/-! ### Python string ordering

Python's `sorted` on strings compares lexicographically by Unicode code
point.  `lexLe` is that order on the underlying character lists; it is the
order used below to model `sorted(...)` in `Image.get_tags`.
-/

/-- Lexicographic (code-point) comparison of character lists, the order
Python uses to compare `str` values. -/
def lexLe : List Char → List Char → Bool
  | [], _ => true
  | _ :: _, [] => false
  | a :: as, b :: bs =>
    if a.toNat < b.toNat then true
    else if b.toNat < a.toNat then false
    else lexLe as bs

/-- Python's `<=` on strings. -/
def pyStrLe (a b : String) : Bool :=
  lexLe a.data b.data

/-- Python's `<=` on strings, as a proposition. -/
def pyLe (a b : String) : Prop := pyStrLe a b = true

instance : DecidableRel pyLe := fun _ _ => instDecidableEqBool _ _

theorem lexLe_total (x y : List Char) : lexLe x y = true ∨ lexLe y x = true := by
  induction x generalizing y with
  | nil => left; rfl
  | cons a as ih =>
    cases y with
    | nil => right; rfl
    | cons b bs =>
      simp only [lexLe]
      rcases Nat.lt_trichotomy a.toNat b.toNat with h | h | h
      · left; simp [h]
      · rcases ih bs with h2 | h2
        · left; simp [h, h2]
        · right; simp [h.symm, h2]
      · right; simp [h]

theorem lexLe_trans (x y z : List Char) (hxy : lexLe x y = true) (hyz : lexLe y z = true) :
    lexLe x z = true := by
  induction x generalizing y z with
  | nil => rfl
  | cons a as ih =>
    cases y with
    | nil => simp [lexLe] at hxy
    | cons b bs =>
      cases z with
      | nil => simp [lexLe] at hyz
      | cons c cs =>
        simp only [lexLe] at hxy hyz ⊢
        by_cases hab : a.toNat < b.toNat <;> by_cases hbc : b.toNat < c.toNat <;>
          simp [hab, hbc] at hxy hyz ⊢
        · exact Or.inl (by omega)
        · obtain ⟨h1, _⟩ := hyz
          exact Or.inl (by omega)
        · obtain ⟨h1, _⟩ := hxy
          exact Or.inl (by omega)
        · obtain ⟨h1, h2⟩ := hxy
          obtain ⟨h3, h4⟩ := hyz
          exact Or.inr ⟨by omega, ih bs cs h2 h4⟩

instance : IsTotal String pyLe := ⟨fun a b => lexLe_total a.data b.data⟩

instance : IsTrans String pyLe := ⟨fun a b c => lexLe_trans a.data b.data c.data⟩

/-- Python's `sorted` on a list of strings (ascending code-point order;
stable, and over strings the output is determined by the multiset). -/
def pySorted (xs : List String) : List String := xs.insertionSort pyLe

/-! ### Cloud types and errors -/

/-- `_CLOUD_TYPES = Enum('cloud_types', ('local', 'gcloud', 'dockerhub'))`
(source line 23).  The spec names them `local`, `cli-registry` and
`hosted-registry` respectively. -/
inductive CloudType
  | «local»
  | gcloud
  | dockerhub
deriving DecidableEq

/-- The `.name` attribute of an enum member. -/
def CloudType.pyName : CloudType → String
  | .«local» => "local"
  | .gcloud => "gcloud"
  | .dockerhub => "dockerhub"

/-- The members of `_CLOUD_TYPES`, in declaration order. -/
def CLOUD_TYPES : List CloudType := [.«local», .gcloud, .dockerhub]

/-- A candidate cloud-type value supplied to the `Cloud` constructor: either
a member of `_CLOUD_TYPES` or any other value (identified by its string
rendering). -/
inductive CType
  | known (t : CloudType)
  | unknown (name : String)
deriving DecidableEq

/-- `str`/`.name` rendering of a candidate type, as substituted into error
message templates. -/
def CType.pyName : CType → String
  | .known t => t.pyName
  | .unknown n => n

/-- Python's `str` of a list of strings: `['a', 'b']`. -/
def pyStrList (xs : List String) : String :=
  "[" ++ String.intercalate ", " (xs.map fun s => "\x27" ++ s ++ "\x27") ++ "]"

/-- The `CloudError` taxonomy (source lines 28–38), with the template
arguments each error is raised with. -/
inductive CloudError
  | IMAGE_ERROR (action : String) (err : String)
  | INVALID_OPERATION (ctype : String)
  | INVALID_TYPE (ctype : String)
deriving DecidableEq

/-- The message produced by each error's `string.Template` (source lines
36–38). -/
def CloudError.message : CloudError → String
  | .IMAGE_ERROR action err => "Error " ++ action ++ "ing image: " ++ err
  | .INVALID_OPERATION ctype => "Invalid Cloud type (" ++ ctype ++ ") for this operation"
  | .INVALID_TYPE ctype =>
      "Invalid Cloud type (" ++ ctype ++ "). Must be one of: " ++
        pyStrList (CLOUD_TYPES.map CloudType.pyName)

/-- Any exception a method of the module can raise: a `CloudError`, a
command failure from the CLI runner, or a Python `AttributeError`
(e.g. reading `.tags` of a `None` reference). -/
inductive PyErr
  | cloud (e : CloudError)
  | cmdError (stderr : String)
  | attrError
deriving DecidableEq

/-! ### Collaborator calls and the environment -/

/-- One collaborator call (native Docker client call or `gcloud` CLI
invocation), recorded in the order the code makes them. -/
inductive Event
  | dockerClientNew
  | dockerLogin (auth : List String)
  | gcloudCall (args : List String) (ignoreStderr : Bool)
  | imagesGet (name : String)
  | imageAction (action : String) (name : String)
  | refTag (origName : String) (newTag : String)
  | containersList (filters : Option (List (String × String)))
  | containersGet (name : String)
  | containersRun (name : String) (detach : Bool)
  | containerStop (name : String)
deriving DecidableEq

/-- A native image reference returned by `client.images.get`: its identity
and its `tags` attribute. -/
structure NativeRef where
  name : String
  tags : List String
deriving DecidableEq

/-- One record of the JSON array returned by
`gcloud container images list-tags --format=json`; only its `tags` field is
read. -/
structure TagRecord where
  tags : List String
deriving DecidableEq

/-- One parsed log record: a dictionary from string keys to string values
(the shape `literal_eval` produces for the docker log lines used here). -/
abbrev LogRecord := List (String × String)

/-- One line of the output of `client.images.<action>(name)`: empty (dropped
by the `if l` filter) or one record (`literal_eval(l.strip())`). -/
inductive LogLine
  | empty
  | record (r : LogRecord)
deriving DecidableEq

/-- `'error' in l` followed by `l['error']` on a log record. -/
def recError (r : LogRecord) : Option String :=
  (r.find? fun kv => kv.1 == "error").map fun kv => kv.2

/-- `[literal_eval(l.strip()) for l in out.split(chr(10)) if l]`
(source line 238): drop empty lines, parse the rest. -/
def parseLog (lines : List LogLine) : List LogRecord :=
  lines.filterMap fun
    | .empty => none
    | .record r => some r

/-- Collaborator responses: what the external world returns for each call
the module can make. -/
structure Env where
  /-- `Path.home()`. -/
  home : String
  /-- the native reference `client.images.get(name)` resolves. -/
  imagesGet : String → NativeRef
  /-- the log stream `client.images.<action>(name)` outputs, as lines. -/
  actionLog : String → String → List LogLine
  /-- the parsed JSON the CLI prints on stdout for a given argument list. -/
  cliJson : List String → List TagRecord
  /-- the stderr text a CLI invocation produces for a given argument list. -/
  stderrOf : List String → String
  /-- the names `client.containers.list(filters=...)` returns. -/
  containerNames : Option (List (String × String)) → List String

/-- Modelled from the spec: the Command Executor primitive backing the
module-level `gcloud` runner (`SysCmdRunner('gcloud', '-q').run`, whose
implementation lives outside `src/`).  Per §6 the executor runs the
subcommand and captures output; per §4.2/§8 stderr output is an error
signal unless suppression (`ignore_stderr=True`) is requested, in which
case it is ignored.  The invocation itself is always recorded. -/
def gcloudRun (env : Env) (args : List String) (ignoreStderr : Bool) :
    Except PyErr Unit × List Event :=
  let ev := Event.gcloudCall args ignoreStderr
  if env.stderrOf args != "" && !ignoreStderr then
    (.error (.cmdError (env.stderrOf args)), [ev])
  else
    (.ok (), [ev])

/-! ### The `Cloud` class -/

/-- The `_client` attribute: `None` at first, a `DockerClient` for
`local`/`dockerhub`, the sentinel `True` for `gcloud`. -/
inductive ClientRef
  | none
  | docker
  | flag
deriving DecidableEq

/-- The `Cloud` class state: `type`, `auth` and `_client`.  `auth` is the
opaque credential sequence: the source unpacks it (`*self.auth`) for the
Docker Hub login and indexes its first element (`self.auth[0]`) for the
gcloud key file. -/
structure Cloud where
  type : CType
  auth : List String
  client : ClientRef

/-- `self.auth[0]` (source line 152). -/
def auth0 (auth : List String) : String := auth.headD ""

/-- `validatetype(ctype)` (source lines 358–371): raises
`CloudError.INVALID_TYPE` when the value is not a member of
`Cloud.CLOUD_TYPES`. -/
def validatetype (ctype : CType) : Except PyErr Unit :=
  match ctype with
  | .known _ => .ok ()
  | .unknown _ => .error (.cloud (.INVALID_TYPE ctype.pyName))

/-- `Cloud.login` (source lines 136–157): for `local`/`dockerhub` construct
the native client (and log in to Docker Hub with the stored credentials);
for `gcloud` activate the service account key
`~/.ssh/<auth[0]>.json` and configure docker, both with
`ignore_stderr=True`, then set the client sentinel; otherwise raise
`INVALID_OPERATION`. -/
def Cloud.login (c : Cloud) (env : Env) : Except PyErr Cloud × List Event :=
  match c.type with
  | .known .«local» => (.ok { c with client := .docker }, [.dockerClientNew])
  | .known .dockerhub =>
      (.ok { c with client := .docker }, [.dockerClientNew, .dockerLogin c.auth])
  | .known .gcloud =>
      let args1 := ["auth", "activate-service-account", "--key-file",
                    env.home ++ "/.ssh/" ++ (auth0 c.auth ++ ".json")]
      let args2 := ["auth", "configure-docker"]
      match gcloudRun env args1 true with
      | (.error e, t1) => (.error e, t1)
      | (.ok _, t1) =>
        match gcloudRun env args2 true with
        | (.error e, t2) => (.error e, t1 ++ t2)
        | (.ok _, t2) => (.ok { c with client := .flag }, t1 ++ t2)
  | .unknown _ => (.error (.cloud (.INVALID_OPERATION c.type.pyName)), [])

/-- `Cloud.__init__` (source lines 49–67): store the attributes, validate
the type, then log in when requested. -/
def Cloud.init (ctype : CType) (auth : List String) (doLogin : Bool) (env : Env) :
    Except PyErr Cloud × List Event :=
  let c : Cloud := { type := ctype, auth := auth, client := .none }
  match validatetype ctype with
  | .error e => (.error e, [])
  | .ok _ => if doLogin then c.login env else (.ok c, [])

/-- `Cloud.exec` (source lines 77–94): pass the arguments to the `gcloud`
runner for the `gcloud` type; raise `INVALID_OPERATION` otherwise. -/
def Cloud.exec (c : Cloud) (env : Env) (args : List String) (ignoreStderr : Bool) :
    Except PyErr Unit × List Event :=
  match c.type with
  | .known .gcloud => gcloudRun env args ignoreStderr
  | _ => (.error (.cloud (.INVALID_OPERATION c.type.pyName)), [])

/-! ### The `Container` class -/

/-- The `Container` class state: the owning cloud and the container name
(the backing `_ref` is kept abstract; only its identity matters here). -/
structure Container where
  cloud : Cloud
  name : String

/-- `Container.__init__` (source lines 313–334): for `local`/`dockerhub`
resolve the backing reference with `containers.get(name)`; otherwise raise
`INVALID_OPERATION` (before any collaborator call). -/
def Container.init (cloud : Cloud) (name : String) :
    Except PyErr Container × List Event :=
  match cloud.type with
  | .known .«local» | .known .dockerhub =>
      (.ok { cloud := cloud, name := name }, [.containersGet name])
  | _ => (.error (.cloud (.INVALID_OPERATION cloud.type.pyName)), [])

/-- `Container.stop` (source lines 342–355). -/
def Container.stop (c : Container) : Except PyErr Unit × List Event :=
  match c.cloud.type with
  | .known .«local» | .known .dockerhub => (.ok (), [.containerStop c.name])
  | _ => (.error (.cloud (.INVALID_OPERATION c.cloud.type.pyName)), [])

/-- `Cloud.get_containers` (source lines 107–123): for `local`/`dockerhub`
list the container names and construct a `Container` handle for each (one
`containers.get` per handle); otherwise raise `INVALID_OPERATION` before
any collaborator call. -/
def Cloud.get_containers (c : Cloud) (env : Env)
    (filters : Option (List (String × String))) :
    Except PyErr (List Container) × List Event :=
  match c.type with
  | .known .«local» | .known .dockerhub =>
      let names := env.containerNames filters
      (.ok (names.map fun n => { cloud := c, name := n }),
        .containersList filters :: names.map Event.containersGet)
  | _ => (.error (.cloud (.INVALID_OPERATION c.type.pyName)), [])

/-- `Cloud.get_container` (source lines 96–105): `Container(self, name)`. -/
def Cloud.get_container (c : Cloud) (name : String) :
    Except PyErr Container × List Event :=
  Container.init c name

/-! ### The `Image` class -/

/-- The `Image` class state: the owning cloud, the image name, and the
backing native reference `_ref` (`None` for `gcloud`). -/
structure Image where
  cloud : Cloud
  name : String
  ref : Option NativeRef

/-- `self._docker_client = self.cloud.client if isinstance(self.cloud.client,
DockerClient) else DockerClient()` (source line 180): a fresh client is
constructed whenever the session's client is not already a Docker client. -/
def clientInitTrace (c : Cloud) : List Event :=
  match c.client with
  | .docker => []
  | _ => [.dockerClientNew]

/-- `Image.__init__` (source lines 163–189): for `local`/`dockerhub` resolve
`_ref` with `images.get(name)`; for `gcloud` set `_ref = None`; otherwise
raise `INVALID_OPERATION`. -/
def Image.init (cloud : Cloud) (name : String) (env : Env) :
    Except PyErr Image × List Event :=
  let t0 := clientInitTrace cloud
  match cloud.type with
  | .known .«local» | .known .dockerhub =>
      (.ok { cloud := cloud, name := name, ref := some (env.imagesGet name) },
        t0 ++ [.imagesGet name])
  | .known .gcloud => (.ok { cloud := cloud, name := name, ref := none }, t0)
  | .unknown _ => (.error (.cloud (.INVALID_OPERATION cloud.type.pyName)), t0)

/-- `Cloud.get_image` (source lines 125–134): `Image(self, tag)`. -/
def Cloud.get_image (c : Cloud) (env : Env) (tag : String) :
    Except PyErr Image × List Event :=
  Image.init c tag env

/-- Python truthiness of the optional `image_filter` argument: `None` and
the empty string are falsy. -/
def filterArgs : Option String → List String
  | none => []
  | some f => if f == "" then [] else ["--filter=" ++ f]

/-- The argument list `Image.get_tags` builds for the `gcloud` CLI
(source lines 217–220). -/
def tagListArgs (name : String) (image_filter : Option String) : List String :=
  ["container", "images", "list-tags", name, "--format=json"] ++ filterArgs image_filter

/-- `Image.get_tags` (source lines 201–222): for `local`/`dockerhub` return
`self._ref.tags` as-is; for `gcloud` run
`container images list-tags <name> --format=json [--filter=<f>]` through
`Cloud.exec` and return the flattened, sorted tag lists of the parsed JSON
records; otherwise raise `INVALID_OPERATION`. -/
def Image.get_tags (img : Image) (env : Env) (image_filter : Option String) :
    Except PyErr (List String) × List Event :=
  match img.cloud.type with
  | .known .«local» | .known .dockerhub =>
      match img.ref with
      | some r => (.ok r.tags, [])
      | none => (.error .attrError, [])
  | .known .gcloud =>
      let args := tagListArgs img.name image_filter
      match img.cloud.exec env args false with
      | (.error e, t) => (.error e, t)
      | (.ok _, t) =>
          (.ok (pySorted ((env.cliJson args).flatMap TagRecord.tags)), t)
  | .unknown _ => (.error (.cloud (.INVALID_OPERATION img.cloud.type.pyName)), [])

/-- `Image.manage` (source lines 224–244): for all three known types run the
named docker image action, parse its log stream, and raise `IMAGE_ERROR`
with the concatenated error fields when any record carries one, returning
the parsed log otherwise; an unknown type raises `INVALID_OPERATION`. -/
def Image.manage (img : Image) (env : Env) (action : String) :
    Except PyErr (List LogRecord) × List Event :=
  match img.cloud.type with
  | .known _ =>
      let docker_log := parseLog (env.actionLog action img.name)
      let errors := docker_log.filterMap recError
      if errors.isEmpty then (.ok docker_log, [.imageAction action img.name])
      else
        (.error (.cloud (.IMAGE_ERROR action (String.join errors))),
          [.imageAction action img.name])
  | .unknown _ => (.error (.cloud (.INVALID_OPERATION img.cloud.type.pyName)), [])

/-- `Image.pull` (source lines 246–252). -/
def Image.pull (img : Image) (env : Env) : Except PyErr (List LogRecord) × List Event :=
  img.manage env "pull"

/-- `Image.push` (source lines 254–260). -/
def Image.push (img : Image) (env : Env) : Except PyErr (List LogRecord) × List Event :=
  img.manage env "push"

/-- `Image.run` (source lines 262–282): when `update` is true, `self.pull()`
runs first — before the type dispatch; then `local`/`dockerhub` start a
container and every other type raises `INVALID_OPERATION`. -/
def Image.run (img : Image) (env : Env) (detach : Bool) (update : Bool) :
    Except PyErr String × List Event :=
  let pulled : Option PyErr × List Event :=
    if update then
      match img.pull env with
      | (.error e, t) => (some e, t)
      | (.ok _, t) => (none, t)
    else (none, [])
  match pulled with
  | (some e, t) => (.error e, t)
  | (none, t) =>
    match img.cloud.type with
    | .known .«local» | .known .dockerhub =>
        (.ok img.name, t ++ [.containersRun img.name detach])
    | _ => (.error (.cloud (.INVALID_OPERATION img.cloud.type.pyName)), t)

/-- The outcome of `Image.tag`: the returned value, the receiver after the
call (the method assigns no attribute of `self`), and the collaborator
trace. -/
structure TagResult where
  result : Except PyErr Image
  selfAfter : Image
  trace : List Event

/-- `Image.tag` (source lines 284–307): for `local`/`dockerhub` pull the
current image, apply the new tag to the backing reference, construct a
handle for the new name and push it; for `gcloud` issue one
`container images add-tag` CLI call (`ignore_stderr=True`) and construct
the new handle; otherwise raise `INVALID_OPERATION`. -/
def Image.tag (img : Image) (env : Env) (new_tag : String) : TagResult :=
  match img.cloud.type with
  | .known .«local» | .known .dockerhub =>
      (match img.pull env with
      | (.error e, t1) => { result := .error e, selfAfter := img, trace := t1 }
      | (.ok _, t1) =>
        match img.ref with
        | none => { result := .error .attrError, selfAfter := img, trace := t1 }
        | some r =>
          let t2 := [Event.refTag r.name new_tag]
          match Image.init img.cloud new_tag env with
          | (.error e, t3) =>
              { result := .error e, selfAfter := img, trace := t1 ++ t2 ++ t3 }
          | (.ok newImg, t3) =>
            match newImg.push env with
            | (.error e, t4) =>
                { result := .error e, selfAfter := img, trace := t1 ++ t2 ++ t3 ++ t4 }
            | (.ok _, t4) =>
                { result := .ok newImg, selfAfter := img, trace := t1 ++ t2 ++ t3 ++ t4 })
  | .known .gcloud =>
      (match img.cloud.exec env ["container", "images", "add-tag", img.name, new_tag] true with
      | (.error e, t1) => { result := .error e, selfAfter := img, trace := t1 }
      | (.ok _, t1) =>
        match Image.init img.cloud new_tag env with
        | (.error e, t2) => { result := .error e, selfAfter := img, trace := t1 ++ t2 }
        | (.ok newImg, t2) =>
            { result := .ok newImg, selfAfter := img, trace := t1 ++ t2 })
  | .unknown _ =>
      { result := .error (.cloud (.INVALID_OPERATION img.cloud.type.pyName)),
        selfAfter := img, trace := [] }

/-! ### Concrete fixtures used by witnesses and counterexamples -/

/-- A quiet environment: empty action logs, no CLI output, no stderr. -/
def env0 : Env :=
  { home := "/root"
    imagesGet := fun n => { name := n, tags := ["b", "a"] }
    actionLog := fun _ _ => []
    cliJson := fun _ => []
    stderrOf := fun _ => ""
    containerNames := fun _ => [] }

/-- An environment whose docker action log has one record carrying
`error: "boom"` and one record without an error field. -/
def env1 : Env :=
  { env0 with actionLog := fun _ _ =>
      [.record [("error", "boom")], .record [("status", "done")]] }

/-- An environment whose CLI prints the two JSON records
`{"tags": ["v1", "v3"]}` and `{"tags": ["v2"]}`. -/
def env2 : Env :=
  { env0 with cliJson := fun _ => [{ tags := ["v1", "v3"] }, { tags := ["v2"] }] }

/-- An environment where every CLI call emits informational stderr text. -/
def envNoisy : Env :=
  { env0 with stderrOf := fun _ => "WARNING: informational" }

/-- A logged-in `local` session. -/
def cloudL : Cloud := { type := .known .«local», auth := [], client := .docker }

/-- A logged-in `gcloud` session. -/
def cloudG : Cloud := { type := .known .gcloud, auth := ["sa-key"], client := .flag }

/-- A hand-built session with an unrecognized type value. -/
def cloudU : Cloud := { type := .unknown "azure", auth := [], client := .none }

/-- A `local` image handle with a resolved native reference. -/
def imgL1 : Image :=
  { cloud := cloudL, name := "myapp", ref := some { name := "myapp", tags := ["b", "a"] } }

/-- A `gcloud` image handle (no native reference). -/
def imgG : Image := { cloud := cloudG, name := "myapp", ref := none }

/-- A hand-built container handle on a `gcloud` session. -/
def ctG : Container := { cloud := cloudG, name := "web" }

/-! ### Claims -/

/-- Claim C2: constructing a `Cloud` with a provider kind outside the closed
set `{local, gcloud, dockerhub}` raises `INVALID_TYPE` before any
collaborator call, and the error's message lists exactly the three valid
kinds (the names of all members of the closed enumeration, without
duplicates). -/
theorem C2_invalid_type (n : String) (auth : List String) (doLogin : Bool) (env : Env) :
    Cloud.init (.unknown n) auth doLogin env = (.error (.cloud (.INVALID_TYPE n)), []) ∧
    (CloudError.INVALID_TYPE n).message =
      "Invalid Cloud type (" ++ n ++ "). Must be one of: " ++
        pyStrList ["local", "gcloud", "dockerhub"] ∧
    CLOUD_TYPES.map CloudType.pyName = ["local", "gcloud", "dockerhub"] ∧
    (∀ t : CloudType, t ∈ CLOUD_TYPES) ∧
    CLOUD_TYPES.Nodup := by
  refine ⟨?_, rfl, rfl, ?_, by decide⟩
  · simp [Cloud.init, validatetype, CType.pyName]
  · intro t; cases t <;> simp [CLOUD_TYPES]

/-- Claim C8: `Cloud.login` on a `gcloud` session holding the credential
identifier `"sa-key"` issues exactly two CLI calls, in order —
`auth activate-service-account --key-file <home>/.ssh/sa-key.json`, then
`auth configure-docker` — both with stderr suppression requested, and it
succeeds for every environment, in particular one whose CLI calls all emit
informational stderr text. -/
theorem C8_gcloud_login (env : Env) :
    Cloud.login { type := .known .gcloud, auth := ["sa-key"], client := .none } env =
      (.ok { type := .known .gcloud, auth := ["sa-key"], client := .flag },
       [.gcloudCall ["auth", "activate-service-account", "--key-file",
                     env.home ++ "/.ssh/sa-key.json"] true,
        .gcloudCall ["auth", "configure-docker"] true]) ∧
    Cloud.init (.known .gcloud) ["sa-key"] true env =
      (.ok { type := .known .gcloud, auth := ["sa-key"], client := .flag },
       [.gcloudCall ["auth", "activate-service-account", "--key-file",
                     env.home ++ "/.ssh/sa-key.json"] true,
        .gcloudCall ["auth", "configure-docker"] true]) ∧
    Cloud.login { type := .known .gcloud, auth := ["sa-key"], client := .none } envNoisy =
      (.ok { type := .known .gcloud, auth := ["sa-key"], client := .flag },
       [.gcloudCall ["auth", "activate-service-account", "--key-file",
                     "/root/.ssh/sa-key.json"] true,
        .gcloudCall ["auth", "configure-docker"] true]) := by
  have hkey : ∀ h : String,
      (h ++ "/.ssh/") ++ (auth0 ["sa-key"] ++ ".json") = h ++ "/.ssh/sa-key.json" := by
    intro h; rw [String.append_assoc]; rfl
  refine ⟨?_, ?_, ?_⟩
  · simp [Cloud.login, gcloudRun, hkey env.home]
  · simp [Cloud.init, validatetype, Cloud.login, gcloudRun, hkey env.home]
  · simp [Cloud.login, gcloudRun, envNoisy, env0]; rfl

/-- Claim C9: `Image` construction succeeds for every known provider kind —
for `local`/`dockerhub` the backing reference is populated by an
`images.get(name)` lookup through the owning session's client, for `gcloud`
the handle is built with the reference absent (and no lookup) — while an
unknown kind fails with the typed `INVALID_OPERATION` error. -/
theorem C9_image_init (cloud : Cloud) (name : String) (env : Env) :
    ((cloud.type = .known .«local» ∨ cloud.type = .known .dockerhub) →
      Image.init cloud name env =
        (.ok { cloud := cloud, name := name, ref := some (env.imagesGet name) },
         clientInitTrace cloud ++ [.imagesGet name])) ∧
    (cloud.type = .known .gcloud →
      Image.init cloud name env =
        (.ok { cloud := cloud, name := name, ref := none }, clientInitTrace cloud)) ∧
    (∀ n, cloud.type = .unknown n →
      Image.init cloud name env =
        (.error (.cloud (.INVALID_OPERATION n)), clientInitTrace cloud)) := by
  refine ⟨fun h => ?_, fun h => ?_, fun n h => ?_⟩
  · rcases h with h | h <;> simp [Image.init, h]
  · simp [Image.init, h]
  · simp [Image.init, h, CType.pyName]

/-- Claim C9 witness: the three branches evaluated on concrete sessions. -/
theorem C9_image_init_witness :
    Image.init cloudL "myapp" env0 =
      (.ok { cloud := cloudL, name := "myapp",
             ref := some { name := "myapp", tags := ["b", "a"] } },
       [.imagesGet "myapp"]) ∧
    Image.init cloudG "myapp" env0 =
      (.ok { cloud := cloudG, name := "myapp", ref := none }, [.dockerClientNew]) ∧
    Image.init cloudU "myapp" env0 =
      (.error (.cloud (.INVALID_OPERATION "azure")), [.dockerClientNew]) :=
  ⟨((C9_image_init cloudL "myapp" env0).1 (Or.inl rfl)).trans rfl,
   ((C9_image_init cloudG "myapp" env0).2.1 rfl).trans rfl,
   ((C9_image_init cloudU "myapp" env0).2.2 "azure" rfl).trans rfl⟩

/-- Claim C10: for a `local`/`dockerhub` image handle, `get_tags` ignores
its filter argument entirely — any two filter values give the same result,
namely the backing reference's tag list as-is (no sorting, no filtering,
no collaborator call). -/
theorem C10_get_tags_native_ignores_filter (img : Image) (env : Env)
    (f1 f2 : Option String)
    (ht : img.cloud.type = .known .«local» ∨ img.cloud.type = .known .dockerhub) :
    img.get_tags env f1 = img.get_tags env f2 ∧
    (∀ r, img.ref = some r → img.get_tags env f1 = (.ok r.tags, [])) := by
  rcases ht with h | h <;>
    refine ⟨?_, fun r hr => ?_⟩ <;> cases hcase : img.ref <;>
    simp [Image.get_tags, h, hcase] <;> simp [hcase] at hr <;> simp [hr]

/-- Claim C10 witness: a `local` handle whose reference holds the unsorted
tag list `["b", "a"]` returns it unchanged for two different filters. -/
theorem C10_witness :
    imgL1.get_tags env0 (some "x") = imgL1.get_tags env0 none ∧
    imgL1.get_tags env0 (some "x") = (.ok ["b", "a"], []) :=
  ⟨(C10_get_tags_native_ignores_filter imgL1 env0 (some "x") none (Or.inl rfl)).1,
   (C10_get_tags_native_ignores_filter imgL1 env0 (some "x") none (Or.inl rfl)).2
     { name := "myapp", tags := ["b", "a"] } rfl⟩

/-- Claim C3: for every log stream, `Image.manage` parses the non-empty
lines into records and raises `IMAGE_ERROR` exactly when some record
carries an `error` field, with the action name and the concatenation of all
error values; with no error field it returns the full parsed log; on the
two-record `boom` stream, `manage("pull")` raises `IMAGE_ERROR` whose
message contains `"boom"` and `"pull"`. -/
theorem C3_manage_log_errors (img : Image) (env : Env) (action : String) (t : CloudType)
    (h : img.cloud.type = .known t) :
    ((∃ msg, (img.manage env action).1 = .error (.cloud (.IMAGE_ERROR action msg))) ↔
      (parseLog (env.actionLog action img.name)).any fun r => (recError r).isSome) ∧
    (((parseLog (env.actionLog action img.name)).all fun r => (recError r).isNone) →
      img.manage env action =
        (.ok (parseLog (env.actionLog action img.name)), [.imageAction action img.name])) ∧
    (((parseLog (env.actionLog action img.name)).any fun r => (recError r).isSome) →
      img.manage env action =
        (.error (.cloud (.IMAGE_ERROR action
            (String.join ((parseLog (env.actionLog action img.name)).filterMap recError)))),
         [.imageAction action img.name])) ∧
    imgL1.manage env1 "pull" =
      (.error (.cloud (.IMAGE_ERROR "pull" "boom")), [.imageAction "pull" "myapp"]) ∧
    List.IsInfix "boom".data ((CloudError.IMAGE_ERROR "pull" "boom").message).data ∧
    List.IsInfix "pull".data ((CloudError.IMAGE_ERROR "pull" "boom").message).data := by
  set recs := parseLog (env.actionLog action img.name) with hrecs
  have hiff : (recs.filterMap recError = []) ↔
      ¬ recs.any fun r => (recError r).isSome := by
    rw [List.filterMap_eq_nil_iff]
    constructor
    · intro hall hany
      rw [List.any_eq_true] at hany
      obtain ⟨r, hr, hsome⟩ := hany
      rw [hall r hr] at hsome
      simp at hsome
    · intro hno a ha
      cases hcase : recError a with
      | none => rfl
      | some v => exact absurd (List.any_eq_true.mpr ⟨a, ha, by simp [hcase]⟩) hno
  refine ⟨⟨?_, ?_⟩, fun hall => ?_, fun hany => ?_, rfl, by decide, by decide⟩
  · intro hex
    by_contra hany
    have hemp : recs.filterMap recError = [] := hiff.mpr hany
    obtain ⟨msg, hmsg⟩ := hex
    simp [Image.manage, h, ← hrecs, hemp] at hmsg
  · intro hany
    have hemp : recs.filterMap recError ≠ [] := fun hc => (hiff.mp hc) hany
    exact ⟨String.join (recs.filterMap recError), by
      simp [Image.manage, h, ← hrecs, List.isEmpty_iff, hemp]⟩
  · have hemp : recs.filterMap recError = [] := by
      rw [List.filterMap_eq_nil_iff]
      intro a ha
      have := List.all_eq_true.mp hall a ha
      simpa [Option.isNone_iff_eq_none] using this
    simp [Image.manage, h, ← hrecs, hemp]
  · have hemp : recs.filterMap recError ≠ [] := fun hc => (hiff.mp hc) hany
    simp [Image.manage, h, ← hrecs, List.isEmpty_iff, hemp]

/-- Claim C3 witness: the general statement applied to the concrete `boom`
stream, error branch. -/
theorem C3_manage_log_errors_witness :
    imgL1.manage env1 "pull" =
      (.error (.cloud (.IMAGE_ERROR "pull"
          (String.join ((parseLog (env1.actionLog "pull" imgL1.name)).filterMap recError)))),
       [.imageAction "pull" "myapp"]) :=
  ((C3_manage_log_errors imgL1 env1 "pull" .«local» rfl).2.2.1 (by decide)).trans rfl

/-- Claim C4: on `gcloud`, `get_tags` returns the flattening of every JSON
record's `tags` list sorted ascending (a permutation of the flattened
lists, sorted under the code-point order), a given (non-empty) filter is
passed through as an extra `--filter=<expr>` CLI argument, and on the two
records `{"tags": ["v1", "v3"]}`, `{"tags": ["v2"]}` the result is
`["v1", "v2", "v3"]`. -/
theorem C4_get_tags_cli (img : Image) (env : Env) (f : String)
    (himg : img.cloud.type = .known .gcloud) (hf : f ≠ "")
    (hq : env.stderrOf (tagListArgs img.name (some f)) = "") :
    tagListArgs img.name (some f) =
      ["container", "images", "list-tags", img.name, "--format=json", "--filter=" ++ f] ∧
    img.get_tags env (some f) =
      (.ok (pySorted ((env.cliJson (tagListArgs img.name (some f))).flatMap TagRecord.tags)),
       [.gcloudCall (tagListArgs img.name (some f)) false]) ∧
    List.Sorted pyLe
      (pySorted ((env.cliJson (tagListArgs img.name (some f))).flatMap TagRecord.tags)) ∧
    List.Perm
      (pySorted ((env.cliJson (tagListArgs img.name (some f))).flatMap TagRecord.tags))
      ((env.cliJson (tagListArgs img.name (some f))).flatMap TagRecord.tags) ∧
    imgG.get_tags env2 none =
      (.ok ["v1", "v2", "v3"],
       [.gcloudCall ["container", "images", "list-tags", "myapp", "--format=json"] false]) := by
  refine ⟨by simp [tagListArgs, filterArgs, hf], ?_,
    List.sorted_insertionSort pyLe _, List.perm_insertionSort pyLe _, rfl⟩
  simp [Image.get_tags, himg, Cloud.exec, gcloudRun, hq]

/-- Claim C4 witness: the general statement evaluated with the filter
`"tag=v"` against the two-record environment. -/
theorem C4_get_tags_cli_witness :
    imgG.get_tags env2 (some "tag=v") =
      (.ok (pySorted ((env2.cliJson (tagListArgs "myapp" (some "tag=v"))).flatMap
          TagRecord.tags)),
       [.gcloudCall (tagListArgs "myapp" (some "tag=v")) false]) :=
  (C4_get_tags_cli imgG env2 "tag=v" rfl (by decide) rfl).2.1

/-- Claim C5: on `local`/`dockerhub`, `tag(new_tag)` performs, in order, a
pull of the current image, a native tag application to the backing
reference, an `images.get` lookup constructing the new handle, and a push
of that handle; it returns the new handle, whose name is `new_tag`, and the
receiver's name is unchanged. -/
theorem C5_tag_native (img : Image) (env : Env) (new_tag : String) (r : NativeRef)
    (ht : img.cloud.type = .known .«local» ∨ img.cloud.type = .known .dockerhub)
    (hcl : img.cloud.client = .docker)
    (href : img.ref = some r)
    (hpull : (parseLog (env.actionLog "pull" img.name)).filterMap recError = [])
    (hpush : (parseLog (env.actionLog "push" new_tag)).filterMap recError = []) :
    img.tag env new_tag =
      { result := .ok { cloud := img.cloud, name := new_tag,
                        ref := some (env.imagesGet new_tag) },
        selfAfter := img,
        trace := [.imageAction "pull" img.name, .refTag r.name new_tag,
                  .imagesGet new_tag, .imageAction "push" new_tag] } ∧
    (∀ newImg, (img.tag env new_tag).result = .ok newImg → newImg.name = new_tag) ∧
    (img.tag env new_tag).selfAfter.name = img.name := by
  have hmain : img.tag env new_tag =
      { result := .ok { cloud := img.cloud, name := new_tag,
                        ref := some (env.imagesGet new_tag) },
        selfAfter := img,
        trace := [.imageAction "pull" img.name, .refTag r.name new_tag,
                  .imagesGet new_tag, .imageAction "push" new_tag] } := by
    rcases ht with h | h <;>
      simp [Image.tag, Image.pull, Image.push, Image.manage, Image.init, clientInitTrace,
        h, hcl, href, hpull, hpush]
  refine ⟨hmain, fun newImg hok => ?_, by rw [hmain]⟩
  rw [hmain] at hok
  simp only [Except.ok.injEq] at hok
  rw [← hok]

/-- Claim C5 witness: the native tag flow evaluated on a concrete `local`
handle and quiet environment. -/
theorem C5_tag_native_witness :
    imgL1.tag env0 "myapp:v2" =
      { result := .ok { cloud := cloudL, name := "myapp:v2",
                        ref := some { name := "myapp:v2", tags := ["b", "a"] } },
        selfAfter := imgL1,
        trace := [.imageAction "pull" "myapp", .refTag "myapp" "myapp:v2",
                  .imagesGet "myapp:v2", .imageAction "push" "myapp:v2"] } :=
  ((C5_tag_native imgL1 env0 "myapp:v2" { name := "myapp", tags := ["b", "a"] }
      (Or.inl rfl) rfl rfl rfl rfl).1).trans rfl

/-- `True` exactly for a `gcloud` CLI invocation event. -/
def isCliCall : Event → Bool
  | .gcloudCall _ _ => true
  | _ => false

/-- `True` exactly for a native image action event (pull/push). -/
def isImageAction : Event → Bool
  | .imageAction _ _ => true
  | _ => false

/-- Claim C6: on `gcloud`, `tag(new_tag)` issues exactly one CLI call — the
`add-tag` subcommand on the current and new names, with stderr suppression
requested — performs no pull and no push (no native image action at all),
and returns a new handle named `new_tag` with no native reference. -/
theorem C6_tag_cli (img : Image) (env : Env) (new_tag : String)
    (himg : img.cloud.type = .known .gcloud) (hcl : img.cloud.client = .flag) :
    img.tag env new_tag =
      { result := .ok { cloud := img.cloud, name := new_tag, ref := none },
        selfAfter := img,
        trace := [.gcloudCall ["container", "images", "add-tag", img.name, new_tag] true,
                  .dockerClientNew] } ∧
    (img.tag env new_tag).trace.countP isCliCall = 1 ∧
    (img.tag env new_tag).trace.countP isImageAction = 0 ∧
    (∀ newImg, (img.tag env new_tag).result = .ok newImg → newImg.name = new_tag) := by
  have hmain : img.tag env new_tag =
      { result := .ok { cloud := img.cloud, name := new_tag, ref := none },
        selfAfter := img,
        trace := [.gcloudCall ["container", "images", "add-tag", img.name, new_tag] true,
                  .dockerClientNew] } := by
    simp [Image.tag, Cloud.exec, gcloudRun, Image.init, clientInitTrace, himg, hcl]
  refine ⟨hmain, by rw [hmain]; rfl, by rw [hmain]; rfl, fun newImg hok => ?_⟩
  rw [hmain] at hok
  simp only [Except.ok.injEq] at hok
  rw [← hok]

/-- Claim C6 witness: the CLI tag flow evaluated on a concrete `gcloud`
handle. -/
theorem C6_tag_cli_witness :
    imgG.tag env0 "myapp:v2" =
      { result := .ok { cloud := cloudG, name := "myapp:v2", ref := none },
        selfAfter := imgG,
        trace := [.gcloudCall ["container", "images", "add-tag", "myapp", "myapp:v2"] true,
                  .dockerClientNew] } :=
  ((C6_tag_cli imgG env0 "myapp:v2" rfl rfl).1).trans rfl

/-- Claim C1 counterexample: `Image.run` on a `gcloud` session with the
default `update=True` performs a collaborator call — the native `pull`
image action — before raising `INVALID_OPERATION`, so the operation is not
side-effect free for all argument values. -/
theorem C1_run_counterexample :
    (Image.run imgG env0 true true).1 = .error (.cloud (.INVALID_OPERATION "gcloud")) ∧
    (Image.run imgG env0 true true).2 = [.imageAction "pull" "myapp"] ∧
    (Image.run imgG env0 true true).2 ≠ [] :=
  ⟨rfl, rfl, by decide⟩

/-- Claim C1 (amended): every operation in an unsupported capability cell of
the `gcloud` kind — container listing, container lookup, container stop,
and `run` — fails with `INVALID_OPERATION` naming that kind; for the first
three, and for `run` with `update=false`, no collaborator call precedes the
error, but `run` with `update=true` first performs a `pull` image action
and only then fails. -/
theorem C1_unsupported_ops (c : Cloud) (ct : Container) (img : Image) (env : Env)
    (filters : Option (List (String × String))) (name : String) (detach : Bool)
    (hc : c.type = .known .gcloud) (hct : ct.cloud.type = .known .gcloud)
    (himg : img.cloud.type = .known .gcloud) :
    Cloud.get_containers c env filters =
      (.error (.cloud (.INVALID_OPERATION "gcloud")), []) ∧
    Cloud.get_container c name = (.error (.cloud (.INVALID_OPERATION "gcloud")), []) ∧
    Container.stop ct = (.error (.cloud (.INVALID_OPERATION "gcloud")), []) ∧
    Image.run img env detach false =
      (.error (.cloud (.INVALID_OPERATION "gcloud")), []) ∧
    (Image.run img env detach true).2 = [.imageAction "pull" img.name] ∧
    (Image.run img env detach true).1.toOption = none := by
  refine ⟨by simp [Cloud.get_containers, hc, CType.pyName, CloudType.pyName],
    by simp [Cloud.get_container, Container.init, hc, CType.pyName, CloudType.pyName],
    by simp [Container.stop, hct, CType.pyName, CloudType.pyName],
    by simp [Image.run, himg, CType.pyName, CloudType.pyName], ?_, ?_⟩ <;>
  · by_cases hemp : ((parseLog (env.actionLog "pull" img.name)).filterMap recError).isEmpty <;>
      simp [Image.run, Image.pull, Image.manage, himg, hemp, Except.toOption,
        CType.pyName, CloudType.pyName]

/-- Claim C1 witness: the amended statement evaluated on concrete `gcloud`
handles. -/
theorem C1_unsupported_ops_witness :
    Cloud.get_containers cloudG env0 none =
      (.error (.cloud (.INVALID_OPERATION "gcloud")), []) ∧
    Container.stop ctG = (.error (.cloud (.INVALID_OPERATION "gcloud")), []) ∧
    Image.run imgG env0 true false =
      (.error (.cloud (.INVALID_OPERATION "gcloud")), []) :=
  ⟨(C1_unsupported_ops cloudG ctG imgG env0 none "web" true rfl rfl rfl).1,
   (C1_unsupported_ops cloudG ctG imgG env0 none "web" true rfl rfl rfl).2.2.1,
   (C1_unsupported_ops cloudG ctG imgG env0 none "web" true rfl rfl rfl).2.2.2.1⟩

/-- Claim C7 counterexample: `pull` and `push` on a `gcloud` (cli-registry)
session do not raise `INVALID_OPERATION` — they run the native image action
(source line 237 lists `gcloud` among the supported kinds of `manage`). -/
theorem C7_pull_push_counterexample :
    (Image.pull imgG env0).1 = .ok [] ∧
    (Image.push imgG env0).1 = .ok [] ∧
    (Image.pull imgG env0).2 = [.imageAction "pull" "myapp"] ∧
    (Image.push imgG env0).2 = [.imageAction "push" "myapp"] :=
  ⟨rfl, rfl, rfl, rfl⟩

/-- Claim C7 (amended): `manage` — and hence `pull`/`push` — treats all
three known provider kinds (including `gcloud`) identically, running the
native image action on the handle's name; `INVALID_OPERATION` is raised by
`manage` only for an unknown kind, naming it. -/
theorem C7_manage_uniform_across_kinds (img img2 : Image) (env : Env) (action : String)
    (t1 t2 : CloudType)
    (h1 : img.cloud.type = .known t1) (h2 : img2.cloud.type = .known t2)
    (hname : img.name = img2.name) :
    img.manage env action = img2.manage env action ∧
    (∀ (img3 : Image) (n : String), img3.cloud.type = .unknown n →
      img3.manage env action = (.error (.cloud (.INVALID_OPERATION n)), [])) := by
  constructor
  · simp [Image.manage, h1, h2, hname]
  · intro img3 n h3
    simp [Image.manage, h3, CType.pyName]

/-- Claim C7 witness: `pull` on a `gcloud` handle computes the same result
as on a `local` handle with the same name. -/
theorem C7_manage_uniform_witness :
    Image.manage imgG env0 "pull" = Image.manage imgL1 env0 "pull" :=
  (C7_manage_uniform_across_kinds imgG imgL1 env0 "pull" .gcloud .«local» rfl rfl rfl).1

end CloudMgr
